import Mathlib

/-!
Shallow embedding of `src/calendar_mcp_server.py` (google-calendar-mcp).

The file models the three core components of the server — the credential
lifecycle (`get_credentials`), the natural-language date resolver
(`parse_natural_language_date`, `get_date_range`), and the event
builder/formatter/orchestrator (`format_events`, `create_event`,
`update_event`, `list_events`, `get_events_resource`).

External collaborators (the `dateparser` and `dateutil` parsing libraries,
the Google OAuth flow, the token refresh endpoint, and the Calendar backend
service) are passed in as explicit function arguments: the Python code calls
them through opaque library interfaces, so the embedding quantifies over
their behaviour.  Python exceptions are modelled with `Except String`;
`Optional[str]` arguments are modelled with `Option String`, and Python's
truthiness test on such a value (`if arg:`) is `pyTruthy`.
-/

deriving instance DecidableEq for Except

namespace CalendarMcp

/-- A calendar date, as produced by Python's `datetime.date`. -/
structure PDate where
  year : Nat
  month : Nat
  day : Nat
deriving DecidableEq, Repr

/-- A `datetime.datetime` value: a date, a time of day, and an optional
UTC offset in minutes (None for a naive datetime). -/
structure PDateTime where
  date : PDate
  hour : Nat
  minute : Nat
  second : Nat
  microsecond : Nat
  tzOffsetMinutes : Option Int
deriving DecidableEq, Repr

/-- Two-digit zero padding, as in `%02d` / `isoformat` components. -/
def pad2 (n : Nat) : String :=
  if n < 10 then "0" ++ toString n else toString n

/-- Four-digit zero padding for years, as in `isoformat`. -/
def pad4 (n : Nat) : String :=
  if n < 10 then "000" ++ toString n
  else if n < 100 then "00" ++ toString n
  else if n < 1000 then "0" ++ toString n
  else toString n

/-- Six-digit zero padding for microseconds, as in `isoformat`. -/
def pad6 (n : Nat) : String :=
  if n < 10 then "00000" ++ toString n
  else if n < 100 then "0000" ++ toString n
  else if n < 1000 then "000" ++ toString n
  else if n < 10000 then "00" ++ toString n
  else if n < 100000 then "0" ++ toString n
  else toString n

/-- `date.isoformat()`: `YYYY-MM-DD`. -/
def dateIso (d : PDate) : String :=
  pad4 d.year ++ "-" ++ pad2 d.month ++ "-" ++ pad2 d.day

/-- The `+HH:MM` / `-HH:MM` suffix `datetime.isoformat()` appends for an
aware datetime (empty for a naive one). -/
def tzSuffix (o : Option Int) : String :=
  match o with
  | none => ""
  | some off =>
    let sign := if off < 0 then "-" else "+"
    let a := off.natAbs
    sign ++ pad2 (a / 60) ++ ":" ++ pad2 (a % 60)

/-- `datetime.isoformat()`: date, `T`, time (microseconds printed only when
nonzero), then the offset suffix when the datetime is aware. -/
def dtIso (dt : PDateTime) : String :=
  dateIso dt.date ++ "T" ++ pad2 dt.hour ++ ":" ++ pad2 dt.minute ++ ":" ++ pad2 dt.second
    ++ (if dt.microsecond = 0 then "" else "." ++ pad6 dt.microsecond)
    ++ tzSuffix dt.tzOffsetMinutes

/-- Python truthiness of an `Optional[str]` argument: `None` and the empty
string are falsy, every other string is truthy. -/
def pyTruthy (o : Option String) : Bool :=
  match o with
  | none => false
  | some s => !s.isEmpty

/-- Split a character list at every occurrence of `sep`, keeping empty
pieces, as Python's `str.split(sep)` does on the underlying characters. -/
def splitChar (sep : Char) : List Char → List (List Char)
  | [] => [[]]
  | c :: rest =>
    let r := splitChar sep rest
    if c = sep then [] :: r
    else
      match r with
      | h :: t => (c :: h) :: t
      | [] => [[c]]

/-- Python's `str.split(sep)` for a one-character separator: `"a,,b"` gives
`["a", "", "b"]` and `","` gives `["", ""]`. -/
def pySplit (s : String) (sep : Char) : List String :=
  (splitChar sep s.toList).map (fun l => String.mk l)

/-- Drop leading whitespace characters. -/
def dropLeadingWs : List Char → List Char
  | [] => []
  | c :: rest => if c.isWhitespace then dropLeadingWs rest else c :: rest

/-- Python's `str.strip()`: surrounding whitespace removed from both ends. -/
def pyStrip (s : String) : String :=
  String.mk (dropLeadingWs (dropLeadingWs s.toList.reverse).reverse)

/-- `parse_natural_language_date` (source lines 159-188).  `dparse` is the
external `dateparser.parse` (returns a datetime or `None`); `duparse` is the
external `dateutil.parser.parse` (returns a datetime or raises, modelled as
`Except`).  The natural-language parser is tried first; only when it returns
no result is the strict-format parser tried; when that raises too, the
`except` clause raises `ValueError("Unknown string format: " + date_str)`
carrying the original text.  Either success path returns `.date()` of the
parsed datetime. -/
def parse_natural_language_date
    (dparse : String → Option PDateTime)
    (duparse : String → Except String PDateTime)
    (date_str : String) : Except String PDate :=
  match dparse date_str with
  | some parsed_date => .ok parsed_date.date
  | none =>
    match duparse date_str with
    | .ok d => .ok d.date
    | .error _ => .error ("Unknown string format: " ++ date_str)

/-- `get_date_range` (source lines 191-207): resolves the text to a date,
then returns `datetime.combine(date, time.min).isoformat() + 'Z'` and
`datetime.combine(date, time.max).isoformat() + 'Z'`; `time.min` is
00:00:00 (isoformat omits zero microseconds) and `time.max` is
23:59:59.999999.  A parse failure is re-raised as
`ValueError(f"Invalid date format: {e}")`. -/
def get_date_range
    (dparse : String → Option PDateTime)
    (duparse : String → Except String PDateTime)
    (date_str : String) : Except String (String × String) :=
  match parse_natural_language_date dparse duparse date_str with
  | .ok date =>
    .ok (dateIso date ++ "T00:00:00" ++ "Z", dateIso date ++ "T23:59:59.999999" ++ "Z")
  | .error e => .error ("Invalid date format: " ++ e)

/-- The subset of a Google `Credentials` object the control flow of
`get_credentials` inspects: `creds.valid`, `creds.expired`, the truthiness of
`creds.refresh_token`, plus an opaque tag distinguishing credential values. -/
structure Creds where
  valid : Bool
  expired : Bool
  hasRefreshToken : Bool
  tag : String
deriving DecidableEq, Repr

/-- `get_credentials` (source lines 50-94).  `stored` is the credential
loaded from `token.json` when that file exists; `refreshResult` is the
outcome of the external `creds.refresh(Request())` call (its exception
propagates uncaught); `credentialsFile`/`credentialsFileExists` describe
`credentials.json`; `flowResult` is the outcome of the external interactive
`InstalledAppFlow.run_local_server` consent flow.  The token-file write that
follows a successful refresh or flow is a filesystem side effect that does
not change the returned value and is not modelled. -/
def get_credentials
    (stored : Option Creds)
    (refreshResult : Except String Creds)
    (credentialsFile : String)
    (credentialsFileExists : Bool)
    (flowResult : Except String Creds) : Except String Creds :=
  let interactive : Except String Creds :=
    if credentialsFileExists then flowResult
    else .error ("Missing " ++ credentialsFile ++ ". Download it from Google Cloud Console.")
  match stored with
  | some creds =>
    if creds.valid then .ok creds
    else if creds.expired && creds.hasRefreshToken then refreshResult
    else interactive
  | none => interactive

/-- The `start` / `end` sub-dict of a Google event: an optional `dateTime`
string, an optional `date` string, and an optional `timeZone`. -/
structure GTime where
  dateTime : Option String
  date : Option String
  timeZone : Option String
deriving DecidableEq, Repr

/-- An entry of an event's attendee list (only `email` is read/written). -/
structure GAttendee where
  email : Option String
deriving DecidableEq, Repr

/-- The Google Calendar event dict, restricted to the keys the source ever
reads or writes. -/
structure GEvent where
  id : Option String
  summary : Option String
  start : Option GTime
  «end» : Option GTime
  description : Option String
  location : Option String
  attendees : Option (List GAttendee)
  htmlLink : Option String
deriving DecidableEq, Repr

/-- `event.get('start', {}).get('dateTime', event.get('start', {}).get('date', 'Unknown'))`
(source line 132). -/
def startRawOf (event : GEvent) : String :=
  let st := event.start.getD ⟨none, none, none⟩
  st.dateTime.getD (st.date.getD "Unknown")

/-- The same dict-get chain for the `end` field (source line 133). -/
def endRawOf (event : GEvent) : String :=
  let en := event.«end».getD ⟨none, none, none⟩
  en.dateTime.getD (en.date.getD "Unknown")

/-- The attendee email list (source lines 144-146): present attendee dicts
mapped to `attendee.get('email', '')`, absent key giving the empty list. -/
def attendeeEmailsOf (event : GEvent) : List String :=
  match event.attendees with
  | some l => l.map (fun a => a.email.getD "")
  | none => []

/-- `', '.join(attendees) if attendees else 'None'` (source line 153). -/
def attendeeStrOf (event : GEvent) : String :=
  let l := attendeeEmailsOf event
  if l.isEmpty then "None" else String.intercalate ", " l

/-- Python's `c in s` membership test on a string's characters. -/
def pyContains (s : String) (c : Char) : Bool :=
  s.toList.contains c

/-- Hour and minute extraction of `datetime.fromisoformat` for a string
containing a time part: the two `HH` digits and two `MM` digits right after
the first `T`, validated to be digits in range (models the stdlib parser for
the well-formed strings the code feeds it; malformed time parts, on which
`fromisoformat` raises, give `none`). -/
def parseIsoHM (s : String) : Option (Nat × Nat) :=
  match splitChar 'T' s.toList with
  | _ :: t :: _ =>
    match t with
    | c1 :: c2 :: c3 :: c4 :: c5 :: _ =>
      if c1.isDigit && c2.isDigit && c3 = ':' && c4.isDigit && c5.isDigit then
        let h := (c1.toNat - 48) * 10 + (c2.toNat - 48)
        let m := (c4.toNat - 48) * 10 + (c5.toNat - 48)
        if h < 24 && m < 60 then some (h, m) else none
      else none
    | _ => none
  | _ => none

/-- `strftime('%I:%M %p')` on an hour/minute pair (models the CPython
formatter): 12-hour clock with hour 0 shown as 12, zero-padded, and an
AM/PM marker. -/
def formatTime12 (h m : Nat) : String :=
  pad2 (if h % 12 = 0 then 12 else h % 12) ++ ":" ++ pad2 m ++ " "
    ++ (if h < 12 then "AM" else "PM")

/-- Source lines 136-142: a raw start/end string is re-rendered through
`fromisoformat` + `strftime('%I:%M %p')` exactly when it contains a `'T'`
(dateTime form); a plain date string is shown unchanged.  The `fromisoformat`
exception on a malformed time part is the error case. -/
def renderTimeField (s : String) : Except String String :=
  if pyContains s 'T' then
    match parseIsoHM s with
    | some hm => .ok (formatTime12 hm.1 hm.2)
    | none => .error ("Invalid isoformat string: " ++ s)
  else .ok s

/-- One iteration of the formatting loop (source lines 131-154): the block
appended for a single event; an exception from either time conversion
propagates. -/
def formatOneEvent (event : GEvent) : Except String String :=
  match renderTimeField (startRawOf event) with
  | .error e => .error e
  | .ok st =>
    match renderTimeField (endRawOf event) with
    | .error e => .error e
    | .ok et =>
      .ok ("Event: " ++ event.summary.getD "Untitled" ++ "\n"
        ++ "Time: " ++ st ++ " - " ++ et ++ "\n"
        ++ "Location: " ++ event.location.getD "N/A" ++ "\n"
        ++ "Description: " ++ event.description.getD "N/A" ++ "\n"
        ++ "Attendees: " ++ attendeeStrOf event ++ "\n")

/-- The formatting loop over the whole event list, first failure
propagating. -/
def formatBlocks : List GEvent → Except String (List String)
  | [] => .ok []
  | e :: rest =>
    match formatOneEvent e with
    | .error err => .error err
    | .ok b =>
      match formatBlocks rest with
      | .error err => .error err
      | .ok bs => .ok (b :: bs)

/-- `format_events` (source lines 122-156): the empty sequence renders as the
sentinel string, otherwise the per-event blocks joined with a newline. -/
def format_events (events : List GEvent) : Except String String :=
  if events.isEmpty then .ok "No events found."
  else
    match formatBlocks events with
    | .error e => .error e
    | .ok formatted => .ok (String.intercalate "\n" formatted)

/-- The fields of the event record the backend returns that the success
messages read: `event['id']` and `event.get('htmlLink', ...)`. -/
structure InsertedEvent where
  id : String
  htmlLink : Option String
deriving DecidableEq, Repr

/-- Result of a mutation tool call: the returned message, and the event body
handed to the backend write call when that call was reached (`none` when the
backend write was never invoked). -/
structure MutationOutcome where
  message : String
  sentBody : Option GEvent
deriving DecidableEq, Repr

/-- The dateparser-then-dateutil datetime parse inlined in `create_event`
and `update_event` (source lines 327-333, 412-415, 426-429):
`dt = dateparser.parse(s); if not dt: dt = parse_date(s)`, the dateutil
exception escaping to the enclosing `try`. -/
def parseDatetimeFallback
    (dparse : String → Option PDateTime)
    (duparse : String → Except String PDateTime)
    (s : String) : Except String PDateTime :=
  match dparse s with
  | some dt => .ok dt
  | none => duparse s

/-- The `event_body` dict built by `create_event` (source lines 339-364):
summary and the two parsed datetimes (isoformat, `timeZone: UTC`) always;
description and location only when truthy; an attendees key only when the
attendee string is truthy, holding the comma-split entries each stripped of
surrounding whitespace (no filtering of empty entries). -/
def createEventBody (summary : String) (start_dt end_dt : PDateTime)
    (description location attendees : Option String) : GEvent :=
  { id := none
    summary := some summary
    start := some ⟨some (dtIso start_dt), none, some "UTC"⟩
    «end» := some ⟨some (dtIso end_dt), none, some "UTC"⟩
    description := if pyTruthy description then description else none
    location := if pyTruthy location then location else none
    attendees :=
      match attendees with
      | some s =>
        if s.isEmpty then none
        else some ((pySplit s ',').map (fun email => ⟨some (pyStrip email)⟩))
      | none => none
    htmlLink := none }

/-- `create_event` (source lines 301-375).  `serviceResult` is the outcome of
`get_calendar_service()` (credential acquisition plus service build);
`insertResult` is the external `events().insert(...).execute()` call on the
body the function constructs.  `summary`, `start_datetime` and
`end_datetime` are required (non-optional) tool parameters; the others are
`Optional[str]` tested for truthiness.  An attendees string is split on
commas and each piece stripped of surrounding whitespace, with no filtering
of empty results. -/
def create_event
    (dparse : String → Option PDateTime)
    (duparse : String → Except String PDateTime)
    (serviceResult : Except String Unit)
    (insertResult : GEvent → Except String InsertedEvent)
    (summary start_datetime end_datetime : String)
    (description location attendees : Option String) : MutationOutcome :=
  match serviceResult with
  | .error e => ⟨"Error creating event: " ++ e, none⟩
  | .ok _ =>
    match parseDatetimeFallback dparse duparse start_datetime with
    | .error e => ⟨"Error parsing event dates: " ++ e, none⟩
    | .ok start_dt =>
      match parseDatetimeFallback dparse duparse end_datetime with
      | .error e => ⟨"Error parsing event dates: " ++ e, none⟩
      | .ok end_dt =>
        let event_body : GEvent :=
          createEventBody summary start_dt end_dt description location attendees
        match insertResult event_body with
        | .ok ev =>
          ⟨"Event created successfully!\nEvent ID: " ++ ev.id
            ++ "\nLink: " ++ ev.htmlLink.getD "No link available", some event_body⟩
        | .error e => ⟨"Error creating event: " ++ e, some event_body⟩

/-- The per-field datetime handling of `update_event`: an absent or empty
argument parses to "no new value"; a truthy argument goes through the
dateparser-then-dateutil fallback, whose failure carries dateutil's message. -/
def parseIfPresent
    (dparse : String → Option PDateTime)
    (duparse : String → Except String PDateTime)
    (o : Option String) : Except String (Option PDateTime) :=
  match o with
  | none => .ok none
  | some s =>
    if s.isEmpty then .ok none
    else
      match parseDatetimeFallback dparse duparse s with
      | .ok dt => .ok (some dt)
      | .error e => .error e

/-- The merge step of `update_event` (source lines 406-445): the fetched
remote event is mutated field by field — each truthy argument overwrites the
corresponding key (start/end replaced by a fresh
`{'dateTime': iso, 'timeZone': 'UTC'}` dict), every other key is left as
fetched.  A datetime parse failure returns the corresponding
`"Error parsing start date: ..."` / `"Error parsing end date: ..."` message
directly (the error value is that whole message). -/
def mergeDraft
    (dparse : String → Option PDateTime)
    (duparse : String → Except String PDateTime)
    (event : GEvent)
    (summary start_datetime end_datetime description location : Option String) :
    Except String GEvent :=
  let ev1 := if pyTruthy summary then { event with summary := summary } else event
  match parseIfPresent dparse duparse start_datetime with
  | .error e => .error ("Error parsing start date: " ++ e)
  | .ok ostart =>
    let ev2 :=
      match ostart with
      | some dt => { ev1 with start := some ⟨some (dtIso dt), none, some "UTC"⟩ }
      | none => ev1
    match parseIfPresent dparse duparse end_datetime with
    | .error e => .error ("Error parsing end date: " ++ e)
    | .ok oend =>
      let ev3 :=
        match oend with
        | some dt => { ev2 with «end» := some ⟨some (dtIso dt), none, some "UTC"⟩ }
        | none => ev2
      let ev4 := if pyTruthy description then { ev3 with description := description } else ev3
      let ev5 := if pyTruthy location then { ev4 with location := location } else ev4
      .ok ev5

/-- `update_event` (source lines 378-457).  `getResult` is the external
`events().get(...)` fetch of the existing event (a missing id surfaces as an
error from the backend); `updateResult` is the external
`events().update(..., body=event)` write-back on the merged body. -/
def update_event
    (dparse : String → Option PDateTime)
    (duparse : String → Except String PDateTime)
    (serviceResult : Except String Unit)
    (getResult : Except String GEvent)
    (updateResult : GEvent → Except String InsertedEvent)
    (event_id : String)
    (summary start_datetime end_datetime description location : Option String) :
    MutationOutcome :=
  match serviceResult with
  | .error e => ⟨"Error updating event: " ++ e, none⟩
  | .ok _ =>
    match getResult with
    | .error e => ⟨"Error updating event: " ++ e, none⟩
    | .ok event =>
      match mergeDraft dparse duparse event summary start_datetime end_datetime description location with
      | .error msg => ⟨msg, none⟩
      | .ok body =>
        match updateResult body with
        | .ok ev =>
          ⟨"Event updated successfully!\nEvent ID: " ++ ev.id
            ++ "\nLink: " ++ ev.htmlLink.getD "No link available", some body⟩
        | .error e => ⟨"Error updating event: " ++ e, some body⟩

/-- `list_events` (source lines 249-298).  `queryResult` is the external
`events().list(timeMin, timeMax, singleEvents=True, orderBy='startTime')`
call.  The start date goes through `parse_natural_language_date`, a
`ValueError` giving `"Error listing calendar events: ..."`; a truthy
`date_end` is parsed the same way but its `ValueError` is returned as
`"Error parsing end date: ..."`; an absent/falsy `date_end` reuses the start
date.  Every other exception is caught by the outer handler with the
`"Error listing calendar events: "` prefix. -/
def list_events
    (dparse : String → Option PDateTime)
    (duparse : String → Except String PDateTime)
    (serviceResult : Except String Unit)
    (queryResult : String → String → Except String (List GEvent))
    (date_start : String) (date_end : Option String) : String :=
  match serviceResult with
  | .error e => "Error listing calendar events: " ++ e
  | .ok _ =>
    match parse_natural_language_date dparse duparse date_start with
    | .error e => "Error listing calendar events: " ++ e
    | .ok start_date =>
      let start_time := dateIso start_date ++ "T00:00:00" ++ "Z"
      let endOutcome : Except String String :=
        if pyTruthy date_end then
          match parse_natural_language_date dparse duparse (date_end.getD "") with
          | .error e => .error ("Error parsing end date: " ++ e)
          | .ok end_date => .ok (dateIso end_date ++ "T23:59:59.999999" ++ "Z")
        else .ok (dateIso start_date ++ "T23:59:59.999999" ++ "Z")
      match endOutcome with
      | .error msg => msg
      | .ok end_time =>
        match queryResult start_time end_time with
        | .error e => "Error listing calendar events: " ++ e
        | .ok events =>
          match format_events events with
          | .ok out => out
          | .error e => "Error listing calendar events: " ++ e

/-- `get_events_resource` (source lines 211-245), the per-date events query:
service, then `get_date_range`, then the backend list call, then formatting;
every exception is caught by the single outer handler with the
`"Error retrieving calendar events: "` prefix. -/
def get_events_resource
    (dparse : String → Option PDateTime)
    (duparse : String → Except String PDateTime)
    (serviceResult : Except String Unit)
    (queryResult : String → String → Except String (List GEvent))
    (date : String) : String :=
  match serviceResult with
  | .error e => "Error retrieving calendar events: " ++ e
  | .ok _ =>
    match get_date_range dparse duparse date with
    | .error e => "Error retrieving calendar events: " ++ e
    | .ok (start_time, end_time) =>
      match queryResult start_time end_time with
      | .error e => "Error retrieving calendar events: " ++ e
      | .ok events =>
        match format_events events with
        | .ok out => out
        | .error e => "Error retrieving calendar events: " ++ e

/-!
Concrete instantiations of the external collaborators, used to evaluate the
theorems below on closed inputs.  `dpStub` stands for `dateparser.parse`
(note it reports a locale time-of-day and a +05:30 offset for the plain date
`2024-03-15`, exercising the zone-normalization paths); `duStub` stands for
`dateutil.parser.parse`, which raises `ParserError("Unknown string format: ...")`
on text it cannot read.
-/

/-- A concrete natural-language parser: knows a handful of inputs, returns
`none` elsewhere. -/
def dpStub : String → Option PDateTime := fun s =>
  if s = "2024-03-15" then some ⟨⟨2024, 3, 15⟩, 7, 45, 0, 0, some 330⟩
  else if s = "today" then some ⟨⟨2024, 3, 15⟩, 0, 0, 0, 0, none⟩
  else if s = "2024-03-15 10:00" then some ⟨⟨2024, 3, 15⟩, 10, 0, 0, 0, none⟩
  else if s = "2024-03-15 11:00" then some ⟨⟨2024, 3, 15⟩, 11, 0, 0, 0, none⟩
  else none

/-- A concrete strict-format parser that fails on every input, the way
`dateutil.parser.parse` raises on unrecognized text. -/
def duStub : String → Except String PDateTime := fun s =>
  .error ("Unknown string format: " ++ s)

/-- A backend write stub that accepts any body. -/
def insOkStub : GEvent → Except String InsertedEvent := fun _ => .ok ⟨"ev123", none⟩

/-- A backend list stub returning no events. -/
def queryStub : String → String → Except String (List GEvent) := fun _ _ => .ok []

/-- A concrete stored credential that is invalid, expired and refreshable. -/
def expiredCreds : Creds := ⟨false, true, true, "stored-expired"⟩

/-- A concrete valid credential the interactive flow would produce. -/
def freshCreds : Creds := ⟨true, false, true, "fresh-from-flow"⟩

/-- A concrete remote event used to evaluate the merge theorems. -/
def remoteEx : GEvent :=
  ⟨some "e1", some "Standup", some ⟨some "2024-03-15T09:00:00Z", none, none⟩,
   some ⟨some "2024-03-15T09:30:00Z", none, none⟩, some "daily sync", some "Room 1",
   some [⟨some "a@x.com"⟩], some "https://cal/e1"⟩

/-- C1: the date resolver tries the natural-language parser first and its
result wins outright; only when it yields nothing is the strict-format
parser consulted, and only when that also fails does the resolver fail, with
the error carrying the original text. -/
theorem c1_parse_precedence
    (dparse : String → Option PDateTime) (duparse : String → Except String PDateTime)
    (t : String) :
    (∀ dt, dparse t = some dt →
      parse_natural_language_date dparse duparse t = .ok dt.date)
    ∧ (∀ dt, dparse t = none → duparse t = .ok dt →
      parse_natural_language_date dparse duparse t = .ok dt.date)
    ∧ (∀ e, dparse t = none → duparse t = .error e →
      parse_natural_language_date dparse duparse t = .error ("Unknown string format: " ++ t)) := by
  refine ⟨?_, ?_, ?_⟩
  · intro dt h
    simp [parse_natural_language_date, h]
  · intro dt h1 h2
    simp [parse_natural_language_date, h1, h2]
  · intro e h1 h2
    simp [parse_natural_language_date, h1, h2]

/-- Witness for C1: evaluated on the stub parsers, a text the
natural-language parser knows resolves to its date, and a text neither
parser reads fails with the original text in the message. -/
theorem c1_parse_precedence_witness :
    parse_natural_language_date dpStub duStub "2024-03-15" = .ok ⟨2024, 3, 15⟩
    ∧ parse_natural_language_date dpStub duStub "gibberish"
        = .error ("Unknown string format: " ++ "gibberish") := by
  constructor
  · exact (c1_parse_precedence dpStub duStub "2024-03-15").1
      ⟨⟨2024, 3, 15⟩, 7, 45, 0, 0, some 330⟩ (by decide)
  · exact (c1_parse_precedence dpStub duStub "gibberish").2.2
      ("Unknown string format: " ++ "gibberish") (by decide) rfl

/-- C3 counterexample: with a stored credential that is invalid, expired and
refreshable, a failing refresh call, `credentials.json` present, and an
interactive flow that would succeed, `get_credentials` returns the
propagated refresh error — it does not fall through to the interactive
authorization (whose successful result is ignored), contradicting the claim
that a failed refresh is followed by exactly one interactive attempt. -/
theorem c3_refresh_no_fallback_counterexample :
    get_credentials (some expiredCreds) (.error "invalid_grant") "credentials.json" true
      (.ok freshCreds) = .error "invalid_grant" := by
  rfl

/-- C3 amended: when the stored credential is invalid, expired and
refreshable and the refresh call fails, `get_credentials` propagates the
refresh error unconditionally — the interactive flow outcome and the
presence of `credentials.json` are irrelevant (both are universally
quantified and absent from the conclusion), so no interactive authorization
attempt happens in that call. -/
theorem c3_refresh_failure_propagates
    (c : Creds) (e credFile : String) (credExists : Bool)
    (flowResult : Except String Creds)
    (hv : c.valid = false) (he : c.expired = true) (hr : c.hasRefreshToken = true) :
    get_credentials (some c) (.error e) credFile credExists flowResult = .error e := by
  simp [get_credentials, hv, he, hr]

/-- Witness for the amended C3, evaluated at a concrete expired credential
with no `credentials.json` available and a would-succeed flow. -/
theorem c3_refresh_failure_propagates_witness :
    get_credentials (some expiredCreds) (.error "invalid_grant") "creds.json" false
      (.ok freshCreds) = .error "invalid_grant" :=
  c3_refresh_failure_propagates expiredCreds "invalid_grant" "creds.json" false
    (.ok freshCreds) rfl rfl rfl

/-- C10: supplying a textual field of `update_event` as the empty string is
indistinguishable from omitting it — with any of summary, description or
location given as `""` (and even with every argument given as `""`), the
merged payload is exactly the fetched remote event, so no field can be
cleared to empty through an update. -/
theorem c10_empty_string_cannot_clear
    (dparse : String → Option PDateTime) (duparse : String → Except String PDateTime)
    (remote : GEvent) :
    mergeDraft dparse duparse remote (some "") none none none none = .ok remote
    ∧ mergeDraft dparse duparse remote none none none (some "") none = .ok remote
    ∧ mergeDraft dparse duparse remote none none none none (some "") = .ok remote
    ∧ mergeDraft dparse duparse remote (some "") (some "") (some "") (some "") (some "")
        = .ok remote := by
  refine ⟨?_, ?_, ?_, ?_⟩ <;> rfl

/-- C2: the update merge, characterized field by field.  A field supplied
with a non-empty value (the code's presence test, Python truthiness)
overwrites the corresponding field of the fetched remote event; an absent
field — and every field the update tool cannot receive at all: id,
attendees, htmlLink — is carried over unchanged into the written-back
payload.  In particular a draft containing only `location` produces exactly
the remote event with only its location replaced. -/
theorem c2_update_merge_frame :
    (∀ (dparse : String → Option PDateTime) (duparse : String → Except String PDateTime)
       (remote : GEvent) (ms mst men md ml : Option String) (ost oen : Option PDateTime),
      parseIfPresent dparse duparse mst = .ok ost →
      parseIfPresent dparse duparse men = .ok oen →
      mergeDraft dparse duparse remote ms mst men md ml = .ok
        { remote with
          summary := if pyTruthy ms then ms else remote.summary
          start :=
            match ost with
            | some dt => some ⟨some (dtIso dt), none, some "UTC"⟩
            | none => remote.start
          «end» :=
            match oen with
            | some dt => some ⟨some (dtIso dt), none, some "UTC"⟩
            | none => remote.«end»
          description := if pyTruthy md then md else remote.description
          location := if pyTruthy ml then ml else remote.location })
    ∧ (∀ (dparse : String → Option PDateTime) (duparse : String → Except String PDateTime)
       (remote : GEvent) (l : String), l.isEmpty = false →
      mergeDraft dparse duparse remote none none none none (some l) =
        .ok { remote with location := some l }) := by
  constructor
  · intro dparse duparse remote ms mst men md ml ost oen h1 h2
    unfold mergeDraft
    rw [h1, h2]
    cases ost <;> cases oen <;>
      cases hms : pyTruthy ms <;> cases hmd : pyTruthy md <;> cases hml : pyTruthy ml <;>
        simp [hms, hmd, hml]
  · intro dparse duparse remote l hl
    unfold mergeDraft
    simp [parseIfPresent, pyTruthy, hl]

/-- Witness for C2: the location-only draft on a concrete remote event
replaces only the location. -/
theorem c2_update_merge_frame_witness :
    mergeDraft dpStub duStub remoteEx none none none none (some "Room 5") =
      .ok { remoteEx with location := some "Room 5" } :=
  c2_update_merge_frame.2 dpStub duStub remoteEx "Room 5" rfl

/-- C4 counterexample: an attendee string consisting of a single comma is
non-empty, and both of its entries are empty after trimming; the claim
demands a `ValidationError`, but `create_event` succeeds — the backend
insert is executed with an attendee list of two empty email addresses. -/
theorem c4_attendee_validation_counterexample :
    (create_event dpStub duStub (.ok ()) insOkStub "Standup" "2024-03-15 10:00"
        "2024-03-15 11:00" none none (some ",")).message
      = "Event created successfully!\nEvent ID: ev123\nLink: No link available"
    ∧ (create_event dpStub duStub (.ok ()) insOkStub "Standup" "2024-03-15 10:00"
        "2024-03-15 11:00" none none (some ",")).sentBody.map (fun b => b.attendees)
      = some (some [⟨some ""⟩, ⟨some ""⟩]) := by
  constructor <;> rfl

/-- C4 amended: each email in a non-empty comma-separated attendee string is
trimmed of surrounding whitespace, but entries that are empty after trimming
are kept rather than rejected — no `ValidationError` exists; the attendees
field is omitted from the payload exactly when the attendee argument is
absent or the empty string, and a non-empty string sets the event's
attendee list to exactly the trimmed entries of the split (a full
replacement, since a freshly created event has no prior list). -/
theorem create_event_ok_sentBody
    (dparse : String → Option PDateTime) (duparse : String → Except String PDateTime)
    (ins : GEvent → Except String InsertedEvent)
    (s sd ed : String) (d l a : Option String) (dt1 dt2 : PDateTime)
    (h1 : parseDatetimeFallback dparse duparse sd = .ok dt1)
    (h2 : parseDatetimeFallback dparse duparse ed = .ok dt2) :
    (create_event dparse duparse (.ok ()) ins s sd ed d l a).sentBody =
      some (createEventBody s dt1 dt2 d l a) := by
  unfold create_event
  rw [h1, h2]
  dsimp only
  cases hins : ins (createEventBody s dt1 dt2 d l a) <;> rfl

theorem c4_attendee_trimming
    (dparse : String → Option PDateTime) (duparse : String → Except String PDateTime)
    (ins : GEvent → Except String InsertedEvent)
    (s sd ed att : String) (d l : Option String) (dt1 dt2 : PDateTime)
    (h1 : dparse sd = some dt1) (h2 : dparse ed = some dt2)
    (hatt : att.isEmpty = false) :
    (create_event dparse duparse (.ok ()) ins s sd ed d l (some att)).sentBody.map
        (fun b => b.attendees)
      = some (some ((pySplit att ',').map (fun email => ⟨some (pyStrip email)⟩)))
    ∧ (create_event dparse duparse (.ok ()) ins s sd ed d l none).sentBody.map
        (fun b => b.attendees)
      = some none := by
  have hb1 : parseDatetimeFallback dparse duparse sd = .ok dt1 := by
    simp [parseDatetimeFallback, h1]
  have hb2 : parseDatetimeFallback dparse duparse ed = .ok dt2 := by
    simp [parseDatetimeFallback, h2]
  constructor
  · rw [create_event_ok_sentBody dparse duparse ins s sd ed d l (some att) dt1 dt2 hb1 hb2]
    simp [createEventBody, hatt]
  · rw [create_event_ok_sentBody dparse duparse ins s sd ed d l none dt1 dt2 hb1 hb2]
    simp [createEventBody]

/-- Witness for the amended C4: a concrete attendee string with surrounding
whitespace becomes exactly the two trimmed emails. -/
theorem c4_attendee_trimming_witness :
    (create_event dpStub duStub (.ok ()) insOkStub "Standup" "2024-03-15 10:00"
        "2024-03-15 11:00" none none (some "a@x.com, b@x.com")).sentBody.map
      (fun b => b.attendees) = some (some [⟨some "a@x.com"⟩, ⟨some "b@x.com"⟩]) := by
  have h := (c4_attendee_trimming dpStub duStub insOkStub "Standup" "2024-03-15 10:00"
    "2024-03-15 11:00" "a@x.com, b@x.com" none none
    ⟨⟨2024, 3, 15⟩, 10, 0, 0, 0, none⟩ ⟨⟨2024, 3, 15⟩, 11, 0, 0, 0, none⟩
    (by decide) (by decide) (by decide)).1
  refine h.trans (congrArg some (congrArg some ?_))
  decide

/-- C5: whenever the natural-language parser yields nothing and the
strict-format parser raises — which is the behaviour of the external
libraries on the empty string, punctuation-only text, and text denoting a
date outside the representable range, such as year 0 — the resolver fails
with `DateParseError` carrying the original text; and a successful
resolution is always the verbatim `.date()` of one of the two parsers'
results, never a clamped or otherwise adjusted value. -/
theorem c5_unparseable_rejected_never_clamped :
    (∀ (dparse : String → Option PDateTime) (duparse : String → Except String PDateTime)
       (t : String), dparse t = none → (∃ e, duparse t = .error e) →
      parse_natural_language_date dparse duparse t
        = .error ("Unknown string format: " ++ t))
    ∧ (∀ (dparse : String → Option PDateTime) (duparse : String → Except String PDateTime)
       (t : String) (d : PDate),
      parse_natural_language_date dparse duparse t = .ok d →
      ∃ dt : PDateTime, dt.date = d ∧ (dparse t = some dt ∨ duparse t = .ok dt)) := by
  constructor
  · intro dparse duparse t h1 h2
    obtain ⟨e, he⟩ := h2
    simp [parse_natural_language_date, h1, he]
  · intro dparse duparse t d h
    unfold parse_natural_language_date at h
    cases hdp : dparse t with
    | some dt =>
      rw [hdp] at h
      simp only [Except.ok.injEq] at h
      exact ⟨dt, h, Or.inl rfl⟩
    | none =>
      rw [hdp] at h
      cases hdu : duparse t with
      | ok dt =>
        rw [hdu] at h
        simp only [Except.ok.injEq] at h
        exact ⟨dt, h, Or.inr rfl⟩
      | error e =>
        rw [hdu] at h
        simp at h

/-- Witness for C5: on the stub parsers both the empty string and
punctuation-only text fail with the original text in the error. -/
theorem c5_unparseable_rejected_never_clamped_witness :
    parse_natural_language_date dpStub duStub "" = .error ("Unknown string format: " ++ "")
    ∧ parse_natural_language_date dpStub duStub "???"
        = .error ("Unknown string format: " ++ "???") := by
  constructor
  · exact c5_unparseable_rejected_never_clamped.1 dpStub duStub "" (by decide)
      ⟨"Unknown string format: " ++ "", rfl⟩
  · exact c5_unparseable_rejected_never_clamped.1 dpStub duStub "???" (by decide)
      ⟨"Unknown string format: " ++ "???", rfl⟩

/-- C6: for every text either parser resolves, the whole-day range starts at
midnight of the resolved date and ends at its last representable instant
(23:59:59.999999), both suffixed with the fixed `Z` (UTC) marker; the
conclusion depends only on the date component of the parsed value, so the
parser's reported time of day and locale-inferred zone offset are
irrelevant. -/
theorem c6_day_range
    (dparse : String → Option PDateTime) (duparse : String → Except String PDateTime)
    (t : String) (dt : PDateTime) :
    (dparse t = some dt →
      get_date_range dparse duparse t =
        .ok (dateIso dt.date ++ "T00:00:00" ++ "Z",
             dateIso dt.date ++ "T23:59:59.999999" ++ "Z"))
    ∧ (dparse t = none → duparse t = .ok dt →
      get_date_range dparse duparse t =
        .ok (dateIso dt.date ++ "T00:00:00" ++ "Z",
             dateIso dt.date ++ "T23:59:59.999999" ++ "Z")) := by
  constructor
  · intro h
    simp [get_date_range, parse_natural_language_date, h]
  · intro h1 h2
    simp [get_date_range, parse_natural_language_date, h1, h2]

/-- Witness for C6: `2024-03-15` — which the stub natural-language parser
reports with a 07:45 local time and a +05:30 offset — yields exactly the
UTC-marked day bounds of the claim. -/
theorem c6_day_range_witness :
    get_date_range dpStub duStub "2024-03-15" =
      .ok ("2024-03-15T00:00:00Z", "2024-03-15T23:59:59.999999Z") := by
  have h := (c6_day_range dpStub duStub "2024-03-15"
    ⟨⟨2024, 3, 15⟩, 7, 45, 0, 0, some 330⟩).1 (by decide)
  exact h.trans (congrArg Except.ok (by decide))

/-- C7: when the end datetime of `create_event` resolves with neither parser
(the unresolvable-end case; a literally missing end never reaches the
handler, since `end_datetime` is a required parameter of the tool), the call
fails with the date-validation error message and the calendar backend is
never contacted: the conclusion's `sentBody = none` records that the insert
call was not executed, and the universally quantified `ins` does not occur
in the conclusion at all. -/
theorem c7_create_bad_end_no_insert
    (dparse : String → Option PDateTime) (duparse : String → Except String PDateTime)
    (ins : GEvent → Except String InsertedEvent)
    (s sd ed : String) (d l a : Option String) (dt : PDateTime) (e : String)
    (h1 : dparse sd = some dt) (h2 : dparse ed = none) (h3 : duparse ed = .error e) :
    create_event dparse duparse (.ok ()) ins s sd ed d l a =
      ⟨"Error parsing event dates: " ++ e, none⟩ := by
  unfold create_event parseDatetimeFallback
  rw [h1, h2, h3]

/-- Witness for C7: a concrete unresolvable end datetime makes the create
call fail with the parse-error message and no insert. -/
theorem c7_create_bad_end_no_insert_witness :
    create_event dpStub duStub (.ok ()) insOkStub "Standup" "2024-03-15 10:00"
        "not a real date" none none none =
      ⟨"Error parsing event dates: " ++ ("Unknown string format: " ++ "not a real date"),
       none⟩ :=
  c7_create_bad_end_no_insert dpStub duStub insOkStub "Standup" "2024-03-15 10:00"
    "not a real date" none none none ⟨⟨2024, 3, 15⟩, 10, 0, 0, 0, none⟩
    ("Unknown string format: " ++ "not a real date") (by decide) (by decide) rfl

/-- C8 counterexample: `list_events` with a parseable start date and an
unparseable end date returns `"Error parsing end date: ..."` — a single-line
error string that is NOT prefixed with the operation's intent
(`"Error listing calendar events: "`), refuting the claim that every
caller-facing error string carries the operation-intent prefix. -/
theorem c8_intent_prefix_counterexample :
    list_events dpStub duStub (.ok ()) queryStub "today" (some "???")
      = "Error parsing end date: Unknown string format: ???"
    ∧ ("Error listing calendar events".toList.isPrefixOf
        (list_events dpStub duStub (.ok ()) queryStub "today" (some "???")).toList)
      = false := by
  constructor
  · rfl
  · decide

/-- C8 amended: every caller-facing operation is total — every failure of the
credential/service layer, the date resolver, or the backend is caught at the
boundary and returned as a plain error string, and service-layer failures do
carry the operation-intent prefix for all four operations; but the date
parse failure of `list_events`' end date is returned as
`"Error parsing end date: ..."` without the operation-intent prefix (the
same holds for the inline date-parse returns of `create_event` and
`update_event`). -/
theorem c8_error_boundary
    (dparse : String → Option PDateTime) (duparse : String → Except String PDateTime)
    (query : String → String → Except String (List GEvent))
    (ins : GEvent → Except String InsertedEvent)
    (getr : Except String GEvent) (upd : GEvent → Except String InsertedEvent)
    (e e2 ds de s sd ed eid : String) (d l a sm sd2 ed2 d2 l2 : Option String)
    (dt : PDateTime)
    (h1 : dparse ds = some dt) (h2 : dparse de = none) (h3 : duparse de = .error e2)
    (h4 : de.isEmpty = false) :
    list_events dparse duparse (.error e) query ds (some de)
      = "Error listing calendar events: " ++ e
    ∧ (create_event dparse duparse (.error e) ins s sd ed d l a).message
      = "Error creating event: " ++ e
    ∧ (update_event dparse duparse (.error e) getr upd eid sm sd2 ed2 d2 l2).message
      = "Error updating event: " ++ e
    ∧ get_events_resource dparse duparse (.error e) query ds
      = "Error retrieving calendar events: " ++ e
    ∧ list_events dparse duparse (.ok ()) query ds (some de)
      = "Error parsing end date: " ++ ("Unknown string format: " ++ de) := by
  refine ⟨rfl, rfl, rfl, rfl, ?_⟩
  simp [list_events, parse_natural_language_date, h1, h2, h3, pyTruthy, h4]

/-- Witness for the amended C8: a concrete service failure carries the
listing intent prefix, and a concrete unparseable end date yields the
bare end-date parse message. -/
theorem c8_error_boundary_witness :
    list_events dpStub duStub (.error "boom") queryStub "today" (some "whenever")
      = "Error listing calendar events: " ++ "boom"
    ∧ list_events dpStub duStub (.ok ()) queryStub "today" (some "whenever")
      = "Error parsing end date: " ++ ("Unknown string format: " ++ "whenever") := by
  have h := c8_error_boundary dpStub duStub queryStub insOkStub (.ok remoteEx) insOkStub
    "boom" ("Unknown string format: " ++ "whenever") "today" "whenever" "s" "sd" "ed" "id"
    none none none none none none none none ⟨⟨2024, 3, 15⟩, 0, 0, 0, 0, none⟩
    (by decide) (by decide) rfl (by decide)
  exact ⟨h.1, h.2.2.2.2⟩

/-- C9: the renderer of a remote-event sequence.  The empty sequence gives
exactly the sentinel `"No events found."`; a raw start/end string without a
time component (no `T`) is shown verbatim as a plain date, while one with a
time component is re-rendered on the 12-hour clock (hour mod 12, zero shown
as 12, AM before noon, PM after) from the parsed hour and minute; each
event's block shows the title defaulting to `"Untitled"`, the start-end
window, location and description defaulting to `"N/A"`, and the comma-joined
attendee email list defaulting to `"None"` when no attendee list is
present. -/
theorem c9_format_rendering :
    format_events [] = .ok "No events found."
    ∧ (∀ s : String, pyContains s 'T' = false → renderTimeField s = .ok s)
    ∧ (∀ (raw : String) (h m : Nat), pyContains raw 'T' = true →
        parseIsoHM raw = some (h, m) →
        renderTimeField raw
          = .ok (pad2 (if h % 12 = 0 then 12 else h % 12) ++ ":" ++ pad2 m ++ " "
              ++ (if h < 12 then "AM" else "PM")))
    ∧ (∀ (ev : GEvent) (st et : String),
        renderTimeField (startRawOf ev) = .ok st →
        renderTimeField (endRawOf ev) = .ok et →
        formatOneEvent ev = .ok ("Event: " ++ ev.summary.getD "Untitled" ++ "\n"
          ++ "Time: " ++ st ++ " - " ++ et ++ "\n"
          ++ "Location: " ++ ev.location.getD "N/A" ++ "\n"
          ++ "Description: " ++ ev.description.getD "N/A" ++ "\n"
          ++ "Attendees: " ++ attendeeStrOf ev ++ "\n"))
    ∧ (∀ ev : GEvent, ev.attendees = none → attendeeStrOf ev = "None")
    ∧ (∀ (evs : List GEvent) (blocks : List String), evs ≠ [] →
        formatBlocks evs = .ok blocks →
        format_events evs = .ok (String.intercalate "\n" blocks)) := by
  refine ⟨rfl, ?_, ?_, ?_, ?_, ?_⟩
  · intro s h
    simp [renderTimeField, h]
  · intro raw h m h1 h2
    simp [renderTimeField, h1, h2, formatTime12]
  · intro ev st et h1 h2
    unfold formatOneEvent
    rw [h1, h2]
  · intro ev h
    simp [attendeeStrOf, attendeeEmailsOf, h]
  · intro evs blocks hne hblocks
    unfold format_events
    rw [hblocks]
    simp [List.isEmpty_iff, hne]

/-- A concrete remote event with an untitled summary, a timed start, a
date-only end, no location/description, and no attendee list. -/
def evWitness : GEvent :=
  ⟨some "e2", none, some ⟨some "2024-03-15T14:30:00Z", none, none⟩,
   some ⟨none, some "2024-03-15", none⟩, none, none, none, none⟩

/-- Witness for C9: the concrete event renders with all its defaults, the
timed start on the 12-hour clock and the date-only end verbatim. -/
theorem c9_format_rendering_witness :
    formatOneEvent evWitness
      = .ok "Event: Untitled\nTime: 02:30 PM - 2024-03-15\nLocation: N/A\nDescription: N/A\nAttendees: None\n" := by
  have h := c9_format_rendering.2.2.2.1 evWitness "02:30 PM" "2024-03-15"
    (by decide) (by decide)
  exact h.trans (congrArg Except.ok (by decide))

end CalendarMcp
